import Mathlib

/-!
Verification of the lost-and-found matching engine.

Shallow embedding of the rule-based matching engine:
`agent/rule_agent.py` (similarity primitives and the eight-rule decision
cascade), `services/match_service.py` (upsert / listing / deletion against
the match store), and `models/match_result.py` (the `MatchResult` record and
the `MatchLevel` constants).

Modelling conventions:
- timestamps are integers (seconds); Python `timedelta.days` is floor
  division by 86400, embedded as `Int.fdiv`;
- Python floats are embedded as rationals (`ℚ`);
- a Python value that may be `None` is an `Option`;
- code that can raise returns `Except PyErr`; the database session is an
  explicit `Store` value threaded through the service operations, and
  `session.commit()` bumps a commit counter.
-/

/-- A Python exception surfaced by the embedded code. -/
inductive PyErr
  | attributeError
deriving DecidableEq, Repr

namespace MatchLevel

/-- `MatchLevel.HIGH` from `models/match_result.py`. -/
def HIGH : String := "高匹配"

/-- `MatchLevel.MEDIUM` from `models/match_result.py`. -/
def MEDIUM : String := "中匹配"

/-- `MatchLevel.LOW` from `models/match_result.py`. -/
def LOW : String := "低匹配"

end MatchLevel

/-- A lost or found report (`LostItem` / `FoundItem` are symmetric).
Fields that the engine reads; a missing value is `none`. -/
structure Item where
  id : Nat
  category : Option String
  description : Option String
  location : Option String
  occurred_at : Option Int
  user_id : Option Nat
deriving DecidableEq, Repr

/-- A row of the `match_results` table (`models/match_result.py`). -/
structure MatchResult where
  id : Nat
  lost_item_id : Nat
  found_item_id : Nat
  score : Int
  level : String
  reason : Option String
  is_completed : Bool
  completed_at : Option Int
  created_at : Int
  updated_at : Int
deriving DecidableEq, Repr

/-- The database state seen through the SQLAlchemy session: the three
tables plus the autoincrement counter for `match_results.id` and a counter
of `session.commit()` calls. -/
structure Store where
  lostItems : List Item
  foundItems : List Item
  matchResults : List MatchResult
  nextMatchId : Nat
  commits : Nat
deriving DecidableEq, Repr

/-- Outcome of one satisfied decision rule (`RuleOutcome` dataclass). -/
structure RuleOutcome where
  score : Int
  level : String
  reason : String
deriving DecidableEq, Repr

/-! ## Similarity primitives (`RuleBasedAgent` utility helpers) -/

/-- `str.lower()` on one character (ASCII case folding; the CJK text the
engine handles is unaffected by lower-casing). -/
def lowerChar (c : Char) : Char :=
  if 'A' ≤ c ∧ c ≤ 'Z' then Char.ofNat (c.toNat + 32) else c

/-- `str.lower()`. -/
def pyLower (s : String) : String :=
  String.mk (s.data.map lowerChar)

/-- `str.strip()`: drop whitespace from both ends. -/
def pyStrip (s : String) : String :=
  String.mk (((s.data.dropWhile Char.isWhitespace).reverse.dropWhile Char.isWhitespace).reverse)

/-- `_normalize(value) = (value or "").strip().lower()`. -/
def _normalize (value : Option String) : String :=
  pyLower (pyStrip (value.getD ""))

/-- `_time_difference_days(first, second)`: `None` if either timestamp is
missing, else `abs((first - second).days)`; Python `timedelta.days` floors,
hence `Int.fdiv` by 86400 seconds. -/
def _time_difference_days (first second : Option Int) : Option Nat :=
  match first, second with
  | some f, some s => some ((Int.fdiv (f - s) 86400).natAbs)
  | _, _ => none

/-! ### `difflib.SequenceMatcher` (Ratcliff/Obershelp), as used by
`_description_similarity`.  `isjunk` is `None`, so the junk set is empty;
`autojunk` is on, so for `len(b) >= 200` the positions of popular elements
(count `> len(b) // 100 + 1`) are purged from the index `b2j`. -/

/-- Positions of `c` in `b` (the `b2j` chain), with the autojunk purge. -/
def b2jFor (b : List Char) (c : Char) : List Nat :=
  let idxs := (List.range b.length).filter (fun j => b.get? j == some c)
  if b.length ≥ 200 && decide (idxs.length > b.length / 100 + 1) then []
  else idxs

/-- One row of the `find_longest_match` dynamic program: given the previous
row `j2len` and the positions `js` of `a[i]` inside `[blo, bhi)`, build the
new row and update the best block `(besti, bestj, bestsize)`. -/
def flmRow (j2len : Nat → Nat) (i : Nat) (js : List Nat)
    (best : Nat × Nat × Nat) : (Nat → Nat) × (Nat × Nat × Nat) :=
  js.foldl
    (fun st j =>
      let k := (if j = 0 then 0 else j2len (j - 1)) + 1
      let newf := fun x => if x = j then k else st.1 x
      let best' := if k > st.2.2.2 then (i + 1 - k, j + 1 - k, k) else st.2
      (newf, best'))
    ((fun _ => 0), best)

/-- The dynamic-programming phase of `find_longest_match` over
`i ∈ [alo, ahi)`. -/
def flmBest (a : List Char) (b2j : Char → List Nat)
    (alo ahi blo bhi : Nat) : Nat × Nat × Nat :=
  ((List.range' alo (ahi - alo)).foldl
    (fun st i =>
      let js := (b2j (a.getD i ' ')).filter (fun j => blo ≤ j && j < bhi)
      flmRow st.1 i js st.2)
    ((fun _ => 0), (alo, blo, 0))).2

/-- The left extension loop of `find_longest_match` (the junk set is empty,
so `isbjunk` is always false and only the non-junk loops can fire).  The
fuel argument bounds the iteration count; `besti` itself is a valid bound. -/
def flmExtendLeft (a b : List Char) (alo blo : Nat) :
    Nat → Nat × Nat × Nat → Nat × Nat × Nat
  | 0, st => st
  | fuel + 1, (bi, bj, bs) =>
    if alo < bi && blo < bj && (a.get? (bi - 1) == b.get? (bj - 1)) then
      flmExtendLeft a b alo blo fuel (bi - 1, bj - 1, bs + 1)
    else (bi, bj, bs)

/-- The right extension loop of `find_longest_match`. -/
def flmExtendRight (a b : List Char) (ahi bhi : Nat) :
    Nat → Nat × Nat × Nat → Nat × Nat × Nat
  | 0, st => st
  | fuel + 1, (bi, bj, bs) =>
    if bi + bs < ahi && bj + bs < bhi && (a.get? (bi + bs) == b.get? (bj + bs)) then
      flmExtendRight a b ahi bhi fuel (bi, bj, bs + 1)
    else (bi, bj, bs)

/-- `SequenceMatcher.find_longest_match(alo, ahi, blo, bhi)`. -/
def find_longest_match (a b : List Char) (b2j : Char → List Nat)
    (alo ahi blo bhi : Nat) : Nat × Nat × Nat :=
  let best := flmBest a b2j alo ahi blo bhi
  let best := flmExtendLeft a b alo blo best.1 best
  flmExtendRight a b ahi bhi ahi best

/-- Total size of the matching blocks found by the recursive split of
`get_matching_blocks` (`ratio` only needs the sum of the block sizes; the
sort-and-merge step of `get_matching_blocks` preserves it).  Each recursive
call shrinks the `a`-interval, so fuel `a.length + b.length + 1` is never
exhausted at the top-level call. -/
def matchingTotal (a b : List Char) (b2j : Char → List Nat) :
    Nat → Nat → Nat → Nat → Nat → Nat
  | 0, _, _, _, _ => 0
  | fuel + 1, alo, ahi, blo, bhi =>
    let m := find_longest_match a b b2j alo ahi blo bhi
    let i := m.1
    let j := m.2.1
    let k := m.2.2
    if k = 0 then 0
    else
      k + (if alo < i && blo < j then matchingTotal a b b2j fuel alo i blo j else 0)
        + (if i + k < ahi && j + k < bhi then
             matchingTotal a b b2j fuel (i + k) ahi (j + k) bhi else 0)

/-- `SequenceMatcher(a=first, b=second).ratio()`:
`2 * M / (len(a) + len(b))`, and `1.0` when both strings are empty. -/
def seqSimilarity (first second : String) : ℚ :=
  let a := first.data
  let b := second.data
  let la := a.length
  let lb := b.length
  if la + lb = 0 then 1
  else mkRat (2 * matchingTotal a b (b2jFor b) (la + lb + 1) 0 la 0 lb) (la + lb)

/-- `_description_similarity(first, second)`:
`SequenceMatcher(a=first.lower(), b=second.lower()).ratio()`.
The Python parameters are plain `str`: a `None` argument raises
(`None.lower()` is an `AttributeError`), embedded as `none`. -/
def _description_similarity (first second : Option String) : Option ℚ :=
  match first, second with
  | some f, some s => some (seqSimilarity (pyLower f) (pyLower s))
  | _, _ => none

/-! ### `_keyword_overlap` tokenizer -/

/-- Character class used by the regex `[一-鿿]+|[a-z0-9]+`. -/
inductive CharKind
  | cjk
  | alnum
  | other
deriving DecidableEq, BEq, Repr

/-- Classify one character of the lower-cased text. -/
def charKind (c : Char) : CharKind :=
  if 0x4e00 ≤ c.toNat ∧ c.toNat ≤ 0x9fff then .cjk
  else if ('a' ≤ c ∧ c ≤ 'z') ∨ ('0' ≤ c ∧ c ≤ '9') then .alnum
  else .other

/-- Maximal runs of CJK and of alphanumeric characters, in order: the
matches of `re.findall` with the alternation pattern.  The accumulator
holds the kind and reversed characters of the run being scanned. -/
def runsAux : List Char → Option (CharKind × List Char) → List (CharKind × List Char)
  | [], none => []
  | [], some (k, acc) => [(k, acc.reverse)]
  | c :: cs, none =>
    match charKind c with
    | .other => runsAux cs none
    | k => runsAux cs (some (k, [c]))
  | c :: cs, some (k, acc) =>
    match charKind c with
    | .other => (k, acc.reverse) :: runsAux cs none
    | k' =>
      if k' = k then runsAux cs (some (k, c :: acc))
      else (k, acc.reverse) :: runsAux cs (some (k', [c]))

/-- The contiguous substrings of lengths `2..min(6, len(run))` of a CJK
run (`for i in range(length): for l in range(2, maxlen + 1): ...`). -/
def cjkSubstrings (run : List Char) : List (List Char) :=
  let n := run.length
  let maxlen := min 6 n
  (List.range n).flatMap (fun i =>
    (List.range' 2 (maxlen - 1)).filterMap (fun l =>
      if i + l ≤ n then some ((run.drop i).take l) else none))

/-- `tokenize(text)` inside `_keyword_overlap`: the empty set for a falsy
argument (`None` or the empty string); otherwise the set of maximal CJK and
alphanumeric runs of the lower-cased text, plus every substring of length
2–6 of each CJK run.  The set is embedded as a deduplicated list. -/
def kwTokenize (text : Option String) : List String :=
  match text with
  | none => []
  | some t =>
    if t.data.isEmpty then []
    else
      let rs := runsAux (t.data.map lowerChar) none
      let base := rs.map (fun kr => String.mk kr.2)
      let expanded :=
        (rs.filter (fun kr => kr.1 == CharKind.cjk)).flatMap
          (fun kr => (cjkSubstrings kr.2).map String.mk)
      (base ++ expanded).dedup

/-- `_keyword_overlap(first, second) = len(tokenize(first) & tokenize(second))`. -/
def _keyword_overlap (first second : Option String) : Nat :=
  ((kwTokenize first).inter (kwTokenize second)).length

/-! ## The decision cascade (`RuleBasedAgent._decide`) -/

/-- The five derived features `_decide` computes for a pair before the
rule cascade runs. -/
structure Features where
  category_match : Bool
  location_match : Bool
  time_gap_days : Option Nat
  description_similarity : ℚ
  keyword_overlap : Nat
deriving DecidableEq, Repr

/-- `gap is not None and gap <= n`: an unknown gap never satisfies `≤ n`. -/
def gapLE (gap : Option Nat) (n : Nat) : Bool :=
  match gap with
  | some g => decide (g ≤ n)
  | none => false

/-- Rule 1 condition: category, location and a time gap of at most 2 days. -/
def rule1_cond (f : Features) : Bool :=
  f.category_match && f.location_match && gapLE f.time_gap_days 2

/-- Rule 2 condition: category, location and similarity at least 0.5. -/
def rule2_cond (f : Features) : Bool :=
  f.category_match && f.location_match && decide (f.description_similarity ≥ mkRat 50 100)

/-- Rule 3 condition: category and (similarity ≥ 0.65 or overlap ≥ 3). -/
def rule3_cond (f : Features) : Bool :=
  f.category_match && (decide (f.description_similarity ≥ mkRat 65 100) || decide (f.keyword_overlap ≥ 3))

/-- Rule 4 condition: category, location and a time gap of at most 7 days. -/
def rule4_cond (f : Features) : Bool :=
  f.category_match && f.location_match && gapLE f.time_gap_days 7

/-- Rule 5 condition: category, gap at most 5 days and overlap ≥ 1. -/
def rule5_cond (f : Features) : Bool :=
  f.category_match && gapLE f.time_gap_days 5 && decide (f.keyword_overlap ≥ 1)

/-- Rule 6 condition: similarity ≥ 0.6 and location. -/
def rule6_cond (f : Features) : Bool :=
  decide (f.description_similarity ≥ mkRat 60 100) && f.location_match

/-- Rule 7 condition: (category and similarity ≥ 0.4) or
(similarity ≥ 0.5 and overlap ≥ 2). -/
def rule7_cond (f : Features) : Bool :=
  (f.category_match && decide (f.description_similarity ≥ mkRat 40 100)) ||
    (decide (f.description_similarity ≥ mkRat 50 100) && decide (f.keyword_overlap ≥ 2))

/-- Rule 8 condition: location, overlap ≥ 2 and similarity ≥ 0.35. -/
def rule8_cond (f : Features) : Bool :=
  f.location_match && decide (f.keyword_overlap ≥ 2) && decide (f.description_similarity ≥ mkRat 35 100)

/-- Outcome of rule 1. -/
def rule1_outcome : RuleOutcome :=
  { score := 98, level := MatchLevel.HIGH, reason := "类别完全匹配，地点相同，时间差不超过2天" }

/-- Outcome of rule 2. -/
def rule2_outcome : RuleOutcome :=
  { score := 90, level := MatchLevel.HIGH, reason := "类别与地点完全匹配，描述相似度高" }

/-- Outcome of rule 3. -/
def rule3_outcome : RuleOutcome :=
  { score := 80, level := MatchLevel.MEDIUM, reason := "类别一致，描述相似或关键词重合度高" }

/-- Outcome of rule 4. -/
def rule4_outcome : RuleOutcome :=
  { score := 75, level := MatchLevel.MEDIUM, reason := "类别与地点匹配，时间差在7天内" }

/-- Outcome of rule 5. -/
def rule5_outcome : RuleOutcome :=
  { score := 70, level := MatchLevel.MEDIUM, reason := "类别相符，时间差合理，描述有关键词重合" }

/-- Outcome of rule 6. -/
def rule6_outcome : RuleOutcome :=
  { score := 65, level := MatchLevel.MEDIUM, reason := "描述相似度高，地点相同" }

/-- Outcome of rule 7. -/
def rule7_outcome : RuleOutcome :=
  { score := 55, level := MatchLevel.LOW, reason := "类别或描述存在相关性" }

/-- Outcome of rule 8. -/
def rule8_outcome : RuleOutcome :=
  { score := 45, level := MatchLevel.LOW, reason := "地点相同，描述有弱相关" }

/-- The eight-rule cascade of `_decide`, over the derived features:
the first satisfied rule wins, `none` if no rule is satisfied. -/
def decideOutcome (f : Features) : Option RuleOutcome :=
  if rule1_cond f then some rule1_outcome
  else if rule2_cond f then some rule2_outcome
  else if rule3_cond f then some rule3_outcome
  else if rule4_cond f then some rule4_outcome
  else if rule5_cond f then some rule5_outcome
  else if rule6_cond f then some rule6_outcome
  else if rule7_cond f then some rule7_outcome
  else if rule8_cond f then some rule8_outcome
  else none

/-- The feature computation at the top of `_decide`.  Computing
`description_similarity` raises when either description is `None`
(surfaced here as `none`); the other features never raise. -/
def pairFeatures (lost_item found_item : Item) : Option Features :=
  match _description_similarity lost_item.description found_item.description with
  | none => none
  | some sim =>
    some
      { category_match := _normalize lost_item.category == _normalize found_item.category
        location_match := _normalize lost_item.location == _normalize found_item.location
        time_gap_days := _time_difference_days lost_item.occurred_at found_item.occurred_at
        description_similarity := sim
        keyword_overlap := _keyword_overlap lost_item.description found_item.description }

/-- `RuleBasedAgent._decide(lost_item, found_item)`: compute the features,
then run the cascade; an `AttributeError` escapes if a description is
`None` (the similarity computation calls `.lower()` on it). -/
def _decide (lost_item found_item : Item) : Except PyErr (Option RuleOutcome) :=
  match pairFeatures lost_item found_item with
  | none => .error PyErr.attributeError
  | some f => .ok (decideOutcome f)

/-! ## Match store (`services/match_service.py`) -/

/-- `MatchResult.query.filter_by(lost_item_id=..., found_item_id=...).first()`. -/
def findPair (s : Store) (lost_id found_id : Nat) : Option MatchResult :=
  s.matchResults.find? (fun m => m.lost_item_id == lost_id && m.found_item_id == found_id)

/-- `MatchService.upsert_match`: create the pair's `MatchResult` if absent;
return a completed one unchanged; otherwise overwrite score/level/reason.
`now` models the column defaults `created_at`/`updated_at` and the
`onupdate` refresh applied by SQLAlchemy when the row is written. -/
def upsert_match (s : Store) (now : Int) (lost_item found_item : Item)
    (score : Int) (level : String) (reason : Option String) :
    MatchResult × Store :=
  match findPair s lost_item.id found_item.id with
  | none =>
    let m : MatchResult :=
      { id := s.nextMatchId
        lost_item_id := lost_item.id
        found_item_id := found_item.id
        score := score
        level := level
        reason := reason
        is_completed := false
        completed_at := none
        created_at := now
        updated_at := now }
    (m, { s with matchResults := s.matchResults ++ [m], nextMatchId := s.nextMatchId + 1 })
  | some m =>
    if m.is_completed then (m, s)
    else
      let m' := { m with score := score, level := level, reason := reason, updated_at := now }
      (m', { s with matchResults := s.matchResults.map (fun x => if x.id == m.id then m' else x) })

/-- `MatchService.bulk_persist`: a single `session.commit()`. -/
def bulk_persist (s : Store) (ms : List MatchResult) : List MatchResult × Store :=
  (ms, { s with commits := s.commits + 1 })

/-- The `ORDER BY is_completed ASC, score DESC, updated_at DESC` relation
shared by every match-listing query. -/
def matchLE (m1 m2 : MatchResult) : Bool :=
  if m1.is_completed = m2.is_completed then
    if m1.score = m2.score then decide (m2.updated_at ≤ m1.updated_at)
    else decide (m2.score ≤ m1.score)
  else m1.is_completed == false

/-- Apply the shared `ORDER BY` to a result set. -/
def sortMatches (ms : List MatchResult) : List MatchResult :=
  ms.mergeSort matchLE

/-- `MatchService.matches_for_lost(lost_id)`. -/
def matches_for_lost (s : Store) (lost_id : Nat) : List MatchResult :=
  sortMatches (s.matchResults.filter (fun m => m.lost_item_id == lost_id))

/-- `MatchService.matches_for_found(found_id)`. -/
def matches_for_found (s : Store) (found_id : Nat) : List MatchResult :=
  sortMatches (s.matchResults.filter (fun m => m.found_item_id == found_id))

/-- `MatchService.recent_matches(limit)`. -/
def recent_matches (s : Store) (limit : Nat) : List MatchResult :=
  (sortMatches s.matchResults).take limit

/-- Look an item up by primary key. -/
def itemById (items : List Item) (i : Nat) : Option Item :=
  items.find? (fun it => it.id == i)

/-- `MatchService.matches_for_user(user_id, limit)`: the inner joins keep
only matches whose two reports exist, filtered to those owned by the user
on either side, under the shared `ORDER BY`. -/
def matches_for_user (s : Store) (user_id : Nat) (limit : Nat) : List MatchResult :=
  (sortMatches (s.matchResults.filter (fun m =>
    (itemById s.lostItems m.lost_item_id).isSome &&
    (itemById s.foundItems m.found_item_id).isSome &&
    ((itemById s.lostItems m.lost_item_id).any (fun it => it.user_id == some user_id) ||
     (itemById s.foundItems m.found_item_id).any (fun it => it.user_id == some user_id))))).take limit

/-- `MatchService.delete_lost_item(lost_id)`: look the report up; if
present, delete it and commit.

Modelled from the spec: the `LostItem.matches` relationship configuration
lives in `models/item.py`, which is not part of the provided sources; per
the spec, deleting a report "cascades deletion of every Match referencing
it", so the deletion also removes every `MatchResult` whose
`lost_item_id` is the deleted id. -/
def delete_lost_item (s : Store) (lost_id : Nat) : Store :=
  match itemById s.lostItems lost_id with
  | none => s
  | some _ =>
    { s with
        lostItems := s.lostItems.filter (fun it => it.id != lost_id)
        matchResults := s.matchResults.filter (fun m => m.lost_item_id != lost_id)
        commits := s.commits + 1 }

/-- `MatchService.delete_found_item(found_id)`: symmetric to
`delete_lost_item`; the cascade is modelled from the spec in the same way
(the `FoundItem.matches` relationship is in the missing `models/item.py`). -/
def delete_found_item (s : Store) (found_id : Nat) : Store :=
  match itemById s.foundItems found_id with
  | none => s
  | some _ =>
    { s with
        foundItems := s.foundItems.filter (fun it => it.id != found_id)
        matchResults := s.matchResults.filter (fun m => m.found_item_id != found_id)
        commits := s.commits + 1 }

/-! ## Orchestrator (`RuleBasedAgent` perception / decision / action) -/

/-- `ORDER BY occurred_at DESC` used by the perception queries (SQLite puts
`NULL` last under `DESC`). -/
def occDesc (a b : Item) : Bool :=
  match a.occurred_at, b.occurred_at with
  | some x, some y => decide (y ≤ x)
  | some _, none => true
  | none, some _ => false
  | none, none => true

/-- `MatchService.all_found_items()` (no user filter). -/
def all_found_items (s : Store) : List Item :=
  s.foundItems.mergeSort occDesc

/-- `MatchService.all_lost_items()` (no user filter). -/
def all_lost_items (s : Store) : List Item :=
  s.lostItems.mergeSort occDesc

/-- `RuleBasedAgent._evaluate_pairs`: decide each pair in order, keeping
the pairs with a satisfied rule; an exception aborts the run. -/
def _evaluate_pairs : List (Item × Item) → Except PyErr (List (Item × Item × RuleOutcome))
  | [] => .ok []
  | (l, f) :: rest =>
    match _decide l f with
    | .error e => .error e
    | .ok none => _evaluate_pairs rest
    | .ok (some o) =>
      match _evaluate_pairs rest with
      | .error e => .error e
      | .ok ds => .ok ((l, f, o) :: ds)

/-- `RuleBasedAgent._act`: upsert every decision through the service, then
commit once via `bulk_persist` — only when at least one match was touched. -/
def _act (s : Store) (now : Int) (decisions : List (Item × Item × RuleOutcome)) :
    List MatchResult × Store :=
  let step := decisions.foldl
    (fun (acc : List MatchResult × Store) d =>
      let r := upsert_match acc.2 now d.1 d.2.1 d.2.2.score d.2.2.level (some d.2.2.reason)
      (acc.1 ++ [r.1], r.2))
    ([], s)
  if step.1.isEmpty then step
  else
    let committed := bulk_persist step.2 step.1
    (step.1, committed.2)

/-- `RuleBasedAgent.handle_new_lost`: pair the new lost report with every
found report and act on the decisions. -/
def handle_new_lost (s : Store) (now : Int) (lost_item : Item) :
    Except PyErr (List MatchResult × Store) :=
  let candidates := all_found_items s
  match _evaluate_pairs (candidates.map (fun found => (lost_item, found))) with
  | .error e => .error e
  | .ok decisions => .ok (_act s now decisions)

/-- `RuleBasedAgent.handle_new_found`: pair the new found report with every
lost report and act on the decisions. -/
def handle_new_found (s : Store) (now : Int) (found_item : Item) :
    Except PyErr (List MatchResult × Store) :=
  let candidates := all_lost_items s
  match _evaluate_pairs (candidates.map (fun lost => (lost, found_item))) with
  | .error e => .error e
  | .ok decisions => .ok (_act s now decisions)

/-! ## Claims -/

/-- C1: the cascade evaluates the eight rules strictly in priority order:
a pair whose features satisfy both rule 1's and rule 3's conditions gets
rule 1's outcome (score 98, tier HIGH), and a pair satisfying no rule's
condition produces no match. -/
theorem decide_cascade_priority (lost_item found_item : Item) (f : Features)
    (hf : pairFeatures lost_item found_item = some f) :
    (rule1_cond f = true → rule3_cond f = true →
      _decide lost_item found_item = .ok (some rule1_outcome)) ∧
    (rule1_cond f = false → rule2_cond f = false → rule3_cond f = false →
      rule4_cond f = false → rule5_cond f = false → rule6_cond f = false →
      rule7_cond f = false → rule8_cond f = false →
      _decide lost_item found_item = .ok none) := by
  constructor
  · intro h1 _
    simp [_decide, hf, decideOutcome, h1]
  · intro h1 h2 h3 h4 h5 h6 h7 h8
    simp [_decide, hf, decideOutcome, h1, h2, h3, h4, h5, h6, h7, h8]

/-- A lost report used to exercise `decide_cascade_priority`. -/
def c1Lost : Item :=
  { id := 1, category := some "a", description := some "cat",
    location := some "b", occurred_at := some 0, user_id := none }

/-- A found report used to exercise `decide_cascade_priority`. -/
def c1Found : Item :=
  { id := 2, category := some "a", description := some "cat",
    location := some "b", occurred_at := some 0, user_id := none }

/-- The features `_decide` derives for the pair `(c1Lost, c1Found)`. -/
def c1Feat : Features :=
  { category_match := true, location_match := true, time_gap_days := some 0,
    description_similarity := 1, keyword_overlap := 1 }

theorem decide_cascade_priority_witness :
    pairFeatures c1Lost c1Found = some c1Feat ∧
    rule1_cond c1Feat = true ∧ rule3_cond c1Feat = true ∧
    _decide c1Lost c1Found = .ok (some rule1_outcome) :=
  ⟨by decide, by decide, by decide,
    (decide_cascade_priority c1Lost c1Found c1Feat (by decide)).1 (by decide) (by decide)⟩

/-- C3: when either report's `occurred_at` is missing the time gap is
unknown (`none`), the three gap-based rule conditions (1, 4 and 5) are
false, and `_decide` still returns normally (the cascade runs on the
remaining rules) — an unknown gap never satisfies a `≤ N` threshold. -/
theorem decide_unknown_gap (lost_item found_item : Item)
    (h : lost_item.occurred_at = none ∨ found_item.occurred_at = none) :
    _time_difference_days lost_item.occurred_at found_item.occurred_at = none ∧
    ∀ f : Features, pairFeatures lost_item found_item = some f →
      rule1_cond f = false ∧ rule4_cond f = false ∧ rule5_cond f = false ∧
      _decide lost_item found_item = .ok (decideOutcome f) := by
  have hgap : _time_difference_days lost_item.occurred_at found_item.occurred_at = none := by
    rcases h with h | h
    · rw [h]
      cases found_item.occurred_at <;> rfl
    · rw [h]
      cases lost_item.occurred_at <;> rfl
  refine ⟨hgap, fun f hf => ?_⟩
  cases hsim : _description_similarity lost_item.description found_item.description with
  | none => simp [pairFeatures, hsim] at hf
  | some sim =>
    simp only [pairFeatures, hsim, Option.some.injEq] at hf
    subst hf
    refine ⟨?_, ?_, ?_, ?_⟩
    · simp [rule1_cond, hgap, gapLE]
    · simp [rule4_cond, hgap, gapLE]
    · simp [rule5_cond, hgap, gapLE]
    · simp only [_decide, pairFeatures, hsim]

/-- A lost report with no `occurred_at`, for `decide_unknown_gap`. -/
def c3Lost : Item :=
  { id := 1, category := some "a", description := some "pen",
    location := some "b", occurred_at := none, user_id := none }

/-- A found report for `decide_unknown_gap`. -/
def c3Found : Item :=
  { id := 2, category := some "a", description := some "pen",
    location := some "c", occurred_at := some 0, user_id := none }

/-- The features `_decide` derives for the pair `(c3Lost, c3Found)`. -/
def c3Feat : Features :=
  { category_match := true, location_match := false, time_gap_days := none,
    description_similarity := 1, keyword_overlap := 1 }

theorem decide_unknown_gap_witness :
    c3Lost.occurred_at = none ∧ pairFeatures c3Lost c3Found = some c3Feat ∧
    (rule1_cond c3Feat = false ∧ rule4_cond c3Feat = false ∧ rule5_cond c3Feat = false ∧
      _decide c3Lost c3Found = .ok (decideOutcome c3Feat)) :=
  ⟨rfl, by decide,
    (decide_unknown_gap c3Lost c3Found (Or.inl rfl)).2 c3Feat (by decide)⟩

/-- C4 counterexample: the claim that `time_gap_days` is the number of
whole days in `|a - b|` (and hence symmetric) is false: one hour apart,
the gap is 1 in one argument order and 0 in the other, because Python's
`timedelta.days` floors before `abs` is applied. -/
theorem time_gap_asymmetric_cex :
    _time_difference_days (some 3600) (some 7200) = some 1 ∧
    _time_difference_days (some 7200) (some 3600) = some 0 := by decide

/-- C4 amended: `time_gap_days(a, b) = |floor((a - b) / 1 day)|`.  When
`a ≥ b` this is the number of whole days in `a - b` (so the original claim
holds in that case), and the function is symmetric whenever the difference
is an exact multiple of a day; in general swapping the arguments can change
the result (see the counterexample). -/
theorem time_gap_amended (a b : Int) :
    (b ≤ a → _time_difference_days (some a) (some b) = some ((a - b).toNat / 86400)) ∧
    ((86400 : Int) ∣ (a - b) →
      _time_difference_days (some a) (some b) = _time_difference_days (some b) (some a)) := by
  constructor
  · intro hba
    simp only [_time_difference_days, Option.some.injEq]
    rw [Int.fdiv_eq_ediv _ (by norm_num)]
    omega
  · intro hdvd
    simp only [_time_difference_days, Option.some.injEq]
    rw [Int.fdiv_eq_ediv _ (by norm_num), Int.fdiv_eq_ediv _ (by norm_num)]
    omega

theorem time_gap_amended_witness :
    ((0 : Int) ≤ 172800) ∧ ((86400 : Int) ∣ (172800 - 0)) ∧
    _time_difference_days (some 172800) (some 0) = some (((172800 : Int) - 0).toNat / 86400) ∧
    _time_difference_days (some 172800) (some 0) = _time_difference_days (some 0) (some 172800) :=
  ⟨by decide, ⟨2, by decide⟩,
    (time_gap_amended 172800 0).1 (by decide),
    (time_gap_amended 172800 0).2 ⟨2, by decide⟩⟩

instance : DecidableEq (Except PyErr (Option RuleOutcome)) := fun a b =>
  match a, b with
  | .ok x, .ok y => decidable_of_iff (x = y) (by simp)
  | .error x, .error y => decidable_of_iff (x = y) (by simp)
  | .ok _, .error _ => isFalse (by simp)
  | .error _, .ok _ => isFalse (by simp)

/-- A lost report whose description is `None`, for the C5 counterexample. -/
def c5Lost : Item :=
  { id := 1, category := some "a", description := none,
    location := some "b", occurred_at := none, user_id := none }

/-- A found report paired with `c5Lost`. -/
def c5Found : Item :=
  { id := 2, category := some "a", description := some "x",
    location := some "b", occurred_at := none, user_id := none }

/-- C5 counterexample: a pair with a `None` description does raise:
`_description_similarity` calls `.lower()` on the raw description, so
`_decide` propagates an `AttributeError` instead of treating the missing
description as an empty string. -/
theorem decide_none_description_raises_cex :
    _decide c5Lost c5Found = .error PyErr.attributeError := by decide

/-- C5 amended: a missing category or location is normalized to the empty
string and never null-dereferences, and the keyword tokenizer treats a
falsy description as the empty token set; but `_decide` only returns
normally when both descriptions are present — a `None` description raises
in `_description_similarity` (see the counterexample). -/
theorem decide_missing_fields_amended (lost_item found_item : Item)
    (dl df : String) (hl : lost_item.description = some dl)
    (hf : found_item.description = some df) :
    (∃ o, _decide lost_item found_item = .ok o) ∧
    _normalize none = "" ∧ kwTokenize none = [] := by
  refine ⟨?_, rfl, rfl⟩
  simp [_decide, pairFeatures, _description_similarity, hl, hf]

/-- A lost report with missing category and location but a present
description, for the C5 amended witness. -/
def c5wLost : Item :=
  { id := 1, category := none, description := some "x",
    location := none, occurred_at := none, user_id := none }

/-- A found report with blank category and missing location, for the C5
amended witness. -/
def c5wFound : Item :=
  { id := 2, category := some "", description := some "y",
    location := none, occurred_at := none, user_id := none }

theorem decide_missing_fields_amended_witness :
    c5wLost.description = some "x" ∧ c5wFound.description = some "y" ∧
    ((∃ o, _decide c5wLost c5wFound = .ok o) ∧
      _normalize none = "" ∧ kwTokenize none = []) :=
  ⟨rfl, rfl, decide_missing_fields_amended c5wLost c5wFound "x" "y" rfl rfl⟩

/-- C2: the three-way upsert contract.  If no `MatchResult` exists for the
pair, a new one is created with the given score, level and reason (and
appended to the store); if one exists with `is_completed = false`, its
score, level and reason are overwritten with the given values; if one
exists with `is_completed = true`, it is returned with the store — and in
particular its score, level, reason and `completed_at` — unchanged. -/
theorem upsert_match_contract (s : Store) (now : Int) (lost_item found_item : Item)
    (score : Int) (level : String) (reason : Option String) :
    (findPair s lost_item.id found_item.id = none →
      (upsert_match s now lost_item found_item score level reason).1.score = score ∧
      (upsert_match s now lost_item found_item score level reason).1.level = level ∧
      (upsert_match s now lost_item found_item score level reason).1.reason = reason ∧
      (upsert_match s now lost_item found_item score level reason).1.is_completed = false ∧
      (upsert_match s now lost_item found_item score level reason).1.completed_at = none ∧
      (upsert_match s now lost_item found_item score level reason).2.matchResults =
        s.matchResults ++ [(upsert_match s now lost_item found_item score level reason).1]) ∧
    (∀ m, findPair s lost_item.id found_item.id = some m → m.is_completed = false →
      (upsert_match s now lost_item found_item score level reason).1.score = score ∧
      (upsert_match s now lost_item found_item score level reason).1.level = level ∧
      (upsert_match s now lost_item found_item score level reason).1.reason = reason ∧
      (upsert_match s now lost_item found_item score level reason).1 ∈
        (upsert_match s now lost_item found_item score level reason).2.matchResults) ∧
    (∀ m, findPair s lost_item.id found_item.id = some m → m.is_completed = true →
      upsert_match s now lost_item found_item score level reason = (m, s)) := by
  refine ⟨fun hnone => ?_, fun m hm hic => ?_, fun m hm hic => ?_⟩
  · simp [upsert_match, hnone]
  · have hmem : m ∈ s.matchResults := List.mem_of_find?_eq_some hm
    simp only [upsert_match, hm, hic, if_neg]
    refine ⟨rfl, rfl, rfl, ?_⟩
    simp only [Bool.false_eq_true, if_false]
    refine List.mem_map.mpr ⟨m, hmem, ?_⟩
    simp
  · simp [upsert_match, hm, hic]

/-- An incomplete stored match between reports 1 and 2, used by the
upsert witnesses. -/
def w2Match : MatchResult :=
  { id := 7, lost_item_id := 1, found_item_id := 2, score := 55,
    level := MatchLevel.LOW, reason := some "r", is_completed := false,
    completed_at := none, created_at := 5, updated_at := 5 }

/-- A one-match store for the upsert witnesses. -/
def w2Store : Store :=
  { lostItems := [], foundItems := [], matchResults := [w2Match],
    nextMatchId := 8, commits := 0 }

/-- The lost report of the pair stored in `w2Store`. -/
def w2Lost : Item :=
  { id := 1, category := some "a", description := some "x",
    location := some "b", occurred_at := none, user_id := none }

/-- The found report of the pair stored in `w2Store`. -/
def w2Found : Item :=
  { id := 2, category := some "a", description := some "x",
    location := some "b", occurred_at := none, user_id := none }

theorem upsert_match_contract_witness :
    findPair w2Store w2Lost.id w2Found.id = some w2Match ∧ w2Match.is_completed = false ∧
    ((upsert_match w2Store 9 w2Lost w2Found 90 MatchLevel.HIGH (some "u")).1.score = 90 ∧
      (upsert_match w2Store 9 w2Lost w2Found 90 MatchLevel.HIGH (some "u")).1.level = MatchLevel.HIGH ∧
      (upsert_match w2Store 9 w2Lost w2Found 90 MatchLevel.HIGH (some "u")).1.reason = some "u" ∧
      (upsert_match w2Store 9 w2Lost w2Found 90 MatchLevel.HIGH (some "u")).1 ∈
        (upsert_match w2Store 9 w2Lost w2Found 90 MatchLevel.HIGH (some "u")).2.matchResults) :=
  ⟨by decide, by decide,
    (upsert_match_contract w2Store 9 w2Lost w2Found 90 MatchLevel.HIGH (some "u")).2.1
      w2Match (by decide) (by decide)⟩

/-- C9: updating an existing incomplete match only overwrites score, level
and reason (and refreshes `updated_at`): its identity fields
(`lost_item_id`, `found_item_id`, `id`), completion state
(`is_completed`, `completed_at`) and `created_at` are unchanged, and every
other stored match is untouched. -/
theorem upsert_incomplete_frame (s : Store) (now : Int) (lost_item found_item : Item)
    (score : Int) (level : String) (reason : Option String) (m : MatchResult)
    (hm : findPair s lost_item.id found_item.id = some m)
    (hic : m.is_completed = false) :
    (upsert_match s now lost_item found_item score level reason).1.is_completed = m.is_completed ∧
    (upsert_match s now lost_item found_item score level reason).1.completed_at = m.completed_at ∧
    (upsert_match s now lost_item found_item score level reason).1.lost_item_id = m.lost_item_id ∧
    (upsert_match s now lost_item found_item score level reason).1.found_item_id = m.found_item_id ∧
    (upsert_match s now lost_item found_item score level reason).1.created_at = m.created_at ∧
    (upsert_match s now lost_item found_item score level reason).1.id = m.id ∧
    (∀ x ∈ s.matchResults, x.id ≠ m.id →
      x ∈ (upsert_match s now lost_item found_item score level reason).2.matchResults) := by
  simp only [upsert_match, hm, hic, Bool.false_eq_true, if_false]
  refine ⟨by trivial, by trivial, by trivial, by trivial, by trivial, by trivial,
    fun x hx hne => ?_⟩
  refine List.mem_map.mpr ⟨x, hx, ?_⟩
  simp [hne]

theorem upsert_incomplete_frame_witness :
    findPair w2Store w2Lost.id w2Found.id = some w2Match ∧ w2Match.is_completed = false ∧
    ((upsert_match w2Store 9 w2Lost w2Found 90 MatchLevel.HIGH (some "u")).1.is_completed = w2Match.is_completed ∧
      (upsert_match w2Store 9 w2Lost w2Found 90 MatchLevel.HIGH (some "u")).1.completed_at = w2Match.completed_at ∧
      (upsert_match w2Store 9 w2Lost w2Found 90 MatchLevel.HIGH (some "u")).1.lost_item_id = w2Match.lost_item_id ∧
      (upsert_match w2Store 9 w2Lost w2Found 90 MatchLevel.HIGH (some "u")).1.found_item_id = w2Match.found_item_id ∧
      (upsert_match w2Store 9 w2Lost w2Found 90 MatchLevel.HIGH (some "u")).1.created_at = w2Match.created_at ∧
      (upsert_match w2Store 9 w2Lost w2Found 90 MatchLevel.HIGH (some "u")).1.id = w2Match.id ∧
      (∀ x ∈ w2Store.matchResults, x.id ≠ w2Match.id →
        x ∈ (upsert_match w2Store 9 w2Lost w2Found 90 MatchLevel.HIGH (some "u")).2.matchResults)) :=
  ⟨by decide, by decide,
    upsert_incomplete_frame w2Store 9 w2Lost w2Found 90 MatchLevel.HIGH (some "u") w2Match
      (by decide) (by decide)⟩

/-- Filtering a list for a key value after removing that key value leaves
nothing. -/
theorem length_filter_filter_ne {α β : Type} [DecidableEq β] (g : α → β) (v : β)
    (l : List α) :
    ((l.filter (fun x => g x != v)).filter (fun x => g x == v)).length = 0 := by
  induction l with
  | nil => rfl
  | cons a l ih => by_cases h : g a = v <;> simp [h, ih]

/-- C6 (spec-modelled cascade): deleting an existing lost (respectively
found) report removes the report and leaves no `MatchResult` referencing
it — the match count for that report is 0. -/
theorem delete_report_cascade (s : Store) (lost_id found_id : Nat) :
    ((∃ it ∈ s.lostItems, it.id = lost_id) →
      ((delete_lost_item s lost_id).lostItems.filter (fun it => it.id == lost_id)).length = 0 ∧
      ((delete_lost_item s lost_id).matchResults.filter
        (fun m => m.lost_item_id == lost_id)).length = 0) ∧
    ((∃ it ∈ s.foundItems, it.id = found_id) →
      ((delete_found_item s found_id).foundItems.filter (fun it => it.id == found_id)).length = 0 ∧
      ((delete_found_item s found_id).matchResults.filter
        (fun m => m.found_item_id == found_id)).length = 0) := by
  constructor
  · intro hex
    have hfind : (itemById s.lostItems lost_id).isSome := by
      rw [itemById, List.find?_isSome]
      obtain ⟨it, hmem, hid⟩ := hex
      exact ⟨it, hmem, by simp [hid]⟩
    cases hit : itemById s.lostItems lost_id with
    | none => rw [hit] at hfind; simp at hfind
    | some it =>
      simp only [delete_lost_item, hit]
      exact ⟨length_filter_filter_ne (fun it => it.id) lost_id s.lostItems,
        length_filter_filter_ne (fun m => m.lost_item_id) lost_id s.matchResults⟩
  · intro hex
    have hfind : (itemById s.foundItems found_id).isSome := by
      rw [itemById, List.find?_isSome]
      obtain ⟨it, hmem, hid⟩ := hex
      exact ⟨it, hmem, by simp [hid]⟩
    cases hit : itemById s.foundItems found_id with
    | none => rw [hit] at hfind; simp at hfind
    | some it =>
      simp only [delete_found_item, hit]
      exact ⟨length_filter_filter_ne (fun it => it.id) found_id s.foundItems,
        length_filter_filter_ne (fun m => m.found_item_id) found_id s.matchResults⟩

/-- A store holding the pair of reports of `w2Match` and that match, for
the deletion witness. -/
def c6Store : Store :=
  { lostItems := [w2Lost], foundItems := [w2Found], matchResults := [w2Match],
    nextMatchId := 8, commits := 0 }

theorem delete_report_cascade_witness :
    (∃ it ∈ c6Store.lostItems, it.id = 1) ∧ (∃ it ∈ c6Store.foundItems, it.id = 2) ∧
    (((delete_lost_item c6Store 1).lostItems.filter (fun it => it.id == 1)).length = 0 ∧
      ((delete_lost_item c6Store 1).matchResults.filter
        (fun m => m.lost_item_id == 1)).length = 0) ∧
    (((delete_found_item c6Store 2).foundItems.filter (fun it => it.id == 2)).length = 0 ∧
      ((delete_found_item c6Store 2).matchResults.filter
        (fun m => m.found_item_id == 2)).length = 0) :=
  ⟨by decide, by decide,
    (delete_report_cascade c6Store 1 2).1 (by decide),
    (delete_report_cascade c6Store 1 2).2 (by decide)⟩

/-- The shared listing order is transitive. -/
theorem matchLE_trans (a b c : MatchResult) (hab : matchLE a b = true)
    (hbc : matchLE b c = true) : matchLE a c = true := by
  unfold matchLE at *
  cases h1 : a.is_completed <;> cases h2 : b.is_completed <;> cases h3 : c.is_completed <;>
    simp_all <;> split_ifs at * <;> omega

/-- The shared listing order is total. -/
theorem matchLE_total (a b : MatchResult) : (matchLE a b || matchLE b a) = true := by
  unfold matchLE
  cases h1 : a.is_completed <;> cases h2 : b.is_completed <;>
    simp_all <;> split_ifs <;> omega

/-- A result list is sorted by the shared listing order: incomplete
before completed, then score descending, then most recently updated
first. -/
def listingSorted (l : List MatchResult) : Prop :=
  l.Pairwise (fun a b => matchLE a b = true)

/-- C7: all four match-listing operations return their results in the same
total order — incomplete first, then by score descending, then by most
recently updated first. -/
theorem listing_order_shared (s : Store) (lost_id found_id user_id limit : Nat) :
    listingSorted (matches_for_lost s lost_id) ∧
    listingSorted (matches_for_found s found_id) ∧
    listingSorted (recent_matches s limit) ∧
    listingSorted (matches_for_user s user_id limit) := by
  have hs : ∀ l : List MatchResult, listingSorted (sortMatches l) := fun l =>
    List.sorted_mergeSort matchLE_trans matchLE_total l
  exact ⟨hs _, hs _,
    List.Pairwise.sublist (List.take_sublist _ _) (hs _),
    List.Pairwise.sublist (List.take_sublist _ _) (hs _)⟩

/-- If every pair decides to "no rule satisfied", `_evaluate_pairs` yields
the empty decision list. -/
theorem evaluate_pairs_all_none (mk : Item → Item × Item) (cands : List Item)
    (h : ∀ x ∈ cands, _decide (mk x).1 (mk x).2 = .ok none) :
    _evaluate_pairs (cands.map mk) = .ok [] := by
  induction cands with
  | nil => rfl
  | cons c cs ih =>
    have hc := h c (by simp)
    have hrest := ih (fun x hx => h x (by simp [hx]))
    cases hmk : mk c with
    | mk l f =>
      rw [hmk] at hc
      simp only [List.map_cons, hmk, _evaluate_pairs]
      rw [hc]
      exact hrest

/-- C10: when no candidate pair satisfies any rule, the orchestrator
returns the empty list and performs no persistence at all: the store —
including its match rows and its commit counter — is returned unchanged,
so neither an upsert nor the batch commit of `bulk_persist` happened. -/
theorem no_rule_no_persistence (s : Store) (now : Int) (lost_item found_item : Item) :
    ((∀ f ∈ s.foundItems, _decide lost_item f = .ok none) →
      handle_new_lost s now lost_item = .ok ([], s)) ∧
    ((∀ l ∈ s.lostItems, _decide l found_item = .ok none) →
      handle_new_found s now found_item = .ok ([], s)) := by
  constructor
  · intro h
    have hall : ∀ x ∈ all_found_items s, _decide lost_item x = .ok none := by
      intro x hx
      simp only [all_found_items, List.mem_mergeSort] at hx
      exact h x hx
    have he := evaluate_pairs_all_none (fun found => (lost_item, found))
      (all_found_items s) (fun x hx => hall x hx)
    simp only [handle_new_lost, he]
    rfl
  · intro h
    have hall : ∀ x ∈ all_lost_items s, _decide x found_item = .ok none := by
      intro x hx
      simp only [all_lost_items, List.mem_mergeSort] at hx
      exact h x hx
    have he := evaluate_pairs_all_none (fun lost => (lost, found_item))
      (all_lost_items s) (fun x hx => hall x hx)
    simp only [handle_new_found, he]
    rfl

/-- A new lost report matching nothing, for the C10 witness. -/
def c10Lost : Item :=
  { id := 1, category := some "c", description := some "xyz",
    location := some "d", occurred_at := none, user_id := none }

/-- A stored found report unrelated to `c10Lost`. -/
def c10Found : Item :=
  { id := 2, category := some "a", description := some "abc",
    location := some "b", occurred_at := none, user_id := none }

/-- A store whose only candidate satisfies no rule against `c10Lost`. -/
def c10Store : Store :=
  { lostItems := [], foundItems := [c10Found], matchResults := [],
    nextMatchId := 1, commits := 0 }

theorem no_rule_no_persistence_witness :
    (∀ f ∈ c10Store.foundItems, _decide c10Lost f = .ok none) ∧
    handle_new_lost c10Store 0 c10Lost = .ok ([], c10Store) :=
  ⟨by decide, (no_rule_no_persistence c10Store 0 c10Lost c10Lost).1 (by decide)⟩

/-- C8: blank fields compare equal.  Whenever both categories
(respectively both locations) normalize to the empty string,
`category_match` (respectively `location_match`) is true in the features
`_decide` derives; and any `None`, empty or whitespace-only field
normalizes to the empty string. -/
theorem blank_fields_match (lost_item found_item : Item) (f : Features)
    (hf : pairFeatures lost_item found_item = some f) :
    (_normalize lost_item.category = "" → _normalize found_item.category = "" →
      f.category_match = true) ∧
    (_normalize lost_item.location = "" → _normalize found_item.location = "" →
      f.location_match = true) ∧
    (∀ sp : String, (∀ c ∈ sp.data, c.isWhitespace = true) → _normalize (some sp) = "") := by
  have hblank : ∀ sp : String, (∀ c ∈ sp.data, c.isWhitespace = true) →
      _normalize (some sp) = "" := by
    intro sp hsp
    have h1 : sp.data.dropWhile Char.isWhitespace = [] :=
      List.dropWhile_eq_nil_iff.mpr fun x hx => hsp x hx
    simp [_normalize, pyStrip, pyLower, h1]
  cases hsim : _description_similarity lost_item.description found_item.description with
  | none => simp [pairFeatures, hsim] at hf
  | some sim =>
    simp only [pairFeatures, hsim, Option.some.injEq] at hf
    subst hf
    exact ⟨fun h1 h2 => by simp [h1, h2], fun h1 h2 => by simp [h1, h2], hblank⟩

/-- A lost report with `None` category and empty location, for the C8
witness. -/
def c8Lost : Item :=
  { id := 1, category := none, description := some "x",
    location := some "", occurred_at := none, user_id := none }

/-- A found report with whitespace-only category and location, for the C8
witness. -/
def c8Found : Item :=
  { id := 2, category := some "   ", description := some "x",
    location := some " ", occurred_at := none, user_id := none }

/-- The features `_decide` derives for the pair `(c8Lost, c8Found)`. -/
def c8Feat : Features :=
  { category_match := true, location_match := true, time_gap_days := none,
    description_similarity := 1, keyword_overlap := 1 }

theorem blank_fields_match_witness :
    pairFeatures c8Lost c8Found = some c8Feat ∧
    _normalize c8Lost.category = "" ∧ _normalize c8Found.category = "" ∧
    _normalize c8Lost.location = "" ∧ _normalize c8Found.location = "" ∧
    c8Feat.category_match = true ∧ c8Feat.location_match = true :=
  ⟨by decide, by decide, by decide, by decide, by decide,
    (blank_fields_match c8Lost c8Found c8Feat (by decide)).1 (by decide) (by decide),
    (blank_fields_match c8Lost c8Found c8Feat (by decide)).2.1 (by decide) (by decide)⟩
